import Mathlib

/-!
Verification development for the QuakeC bytecode virtual machine of the
richter engine (`src/progs/mod.rs`).

The data model and the operations below are shallow embeddings of the Rust
source.  Machine words are modelled as natural numbers below 2^32 (the
source stores globals and entity fields as raw 4-byte little-endian
slots).  Functions that can fail are embedded in one of two shapes:

* pure reads return `Except Failure α`;
* mutating operations return their new state together with
  `Option Failure` (`none` = `Ok(())`), which mirrors Rust `&mut self`
  methods: on an `Err` return the mutations already performed persist.

Rust `panic!` / `assert!` / `unwrap` failures and returned `ProgsError`
values are kept distinct by the two constructors of `Failure`.

The helper modules `progs/globals.rs`, `progs/functions.rs`,
`progs/ops.rs` and `entity.rs` are not part of the sources; wherever one
of their functions is needed it is modelled from the spec and its doc
comment says so.
-/

/-- A 32-bit storage word ("the atomic storage unit is a 4-byte
little-endian slot"). -/
abbrev Word := Nat

/-- Interpret a 32-bit word as a signed `i32` (twos-complement). -/
def wordToI32 (w : Word) : Int :=
  if w < 2147483648 then (w : Int) else (w : Int) - 4294967296

/-- Rust `x as usize` on a signed value: reduce modulo 2^64. -/
def usizeOfInt (x : Int) : Nat :=
  (x % 18446744073709551616).toNat

/-- A failure of an embedded operation: either a returned
`ProgsError` (`err`) or a Rust panic (`panicked`). -/
inductive Failure where
  | err (msg : String)
  | panicked (msg : String)
deriving DecidableEq

/-- Whether an `Except Failure` computation failed by panicking. -/
def exIsPanic {α : Type} : Except Failure α → Bool
  | .error (.panicked _) => true
  | _ => false

/-- Whether an `Except Failure` computation failed by returning an error
value. -/
def exIsErrReturn {α : Type} : Except Failure α → Bool
  | .error (.err _) => true
  | _ => false

/-! ## String table (`StringTable` in `src/progs/mod.rs`)

Rust strings are modelled as byte lists.  The side map
(`RefCell<HashMap<StringId, String>>`) is modelled as an association
list; `HashMap::insert` returning `Some` (the duplicate-id case) becomes
a lookup before insertion. -/

structure StringTable where
  /-- Running byte counter (`byte_count`), initialised to the lump length. -/
  byteCount : Nat
  /-- The string lump loaded from the file (`lump`), as bytes. -/
  lump : List Nat
  /-- Side map for runtime-interned strings (`table`). -/
  table : List (Nat × List Nat)
deriving DecidableEq

/-- Index of the first nul byte of `lump` at or after `start`; `start`
itself when no nul byte follows (the Rust scan leaves `nul_byte` at
`id.0` in that case). -/
def lumpNulScan (lump : List Nat) (start : Nat) : Nat :=
  match lump.drop start |>.findIdx? (fun b => b = 0) with
  | some i => start + i
  | none => start

/-- Embedding of `StringTable::get`. -/
def StringTable.get (st : StringTable) (id : Nat) : Option (List Nat) :=
  if id < st.lump.length then
    some ((st.lump.drop id).take (lumpNulScan st.lump id - id))
  else
    st.table.lookup id

/-- Embedding of `StringTable::insert`: the new id is the current byte
counter; inserting a second string under an id already present in the
side map panics with "duplicate ID in string table"; afterwards the
counter advances by the byte length of the inserted string. -/
def StringTable.insert (st : StringTable) (s : List Nat) :
    Except Failure (Nat × StringTable) :=
  let id := st.byteCount
  match st.table.lookup id with
  | some _ => .error (.panicked "duplicate ID in string table")
  | none =>
      .ok (id, { st with
                   table := (id, s) :: st.table,
                   byteCount := st.byteCount + s.length })

/-- Embedding of `StringTable::id_from_i32`. -/
def StringTable.idFromI32 (st : StringTable) (value : Int) :
    Except Failure Nat :=
  if value < 0 then .error (.err "id < 0")
  else
    let id := value.toNat
    if id < st.lump.length ∨ (st.table.lookup id).isSome then .ok id
    else .error (.err "no string with the given ID")

/-- Embedding of `TryInto<i32> for StringId`. -/
def stringIdTryIntoI32 (id : Nat) : Except Failure Int :=
  if 2147483647 < id then .error (.err "string id out of i32 range")
  else .ok (id : Int)

/-! ## Globals (`Globals` of `src/progs/globals.rs`, not among the
sources; modelled from the spec, section 4.C) -/

/-- Modelled from the spec: `GLOBAL_ADDR_RETURN`, the start of the
3-word return slot.  The numeric value is not stated in the spec; the
reserved region starts with the return slot right after address 0, so 1
is used.  No claim depends on the exact value. -/
def GLOBAL_ADDR_RETURN : Nat := 1

/-- Modelled from the spec: `GLOBAL_ADDR_ARG_0`, the start of the eight
3-word argument slots, directly after the return slot. -/
def GLOBAL_ADDR_ARG_0 : Nat := 4

/-- Modelled from the spec: `GLOBAL_STATIC_START`, the first address
after the reserved static region (return slot, 8 x 3 argument words and
the well-known fields).  The numeric value is not stated in the spec; 28
covers the slots the spec lists.  No claim depends on the exact value. -/
def GLOBAL_STATIC_START : Nat := 28

/-- Modelled from the spec: `GLOBAL_STATIC_COUNT`, the minimum size of
the globals area. -/
def GLOBAL_STATIC_COUNT : Nat := 64

/-- The program-wide globals: a flat array of raw 32-bit words
("A vector of words"). -/
structure Globals where
  addrs : List Word
deriving DecidableEq

/-- Modelled from the spec: raw untyped read of one word
(`get_bytes`).  "All accessors validate 0 <= ofs < len"; offsets arrive
as signed 16-bit values, negative ones are an address error. -/
def Globals.get_bytes (g : Globals) (ofs : Int) : Except Failure Word :=
  if h : 0 ≤ ofs ∧ ofs.toNat < g.addrs.length then
    .ok (g.addrs.get ⟨ofs.toNat, h.2⟩)
  else .error (.err "address out of range")

/-- Modelled from the spec: raw untyped write of one word
(`put_bytes`), bounds-checked like `get_bytes`. -/
def Globals.put_bytes (g : Globals) (val : Word) (ofs : Int) :
    Globals × Option Failure :=
  if 0 ≤ ofs ∧ ofs.toNat < g.addrs.length then
    ({ addrs := g.addrs.set ofs.toNat val }, none)
  else (g, some (.err "address out of range"))

/-- Modelled from the spec: `get_int`, the word read as a signed
`i32`. -/
def Globals.get_int (g : Globals) (ofs : Int) : Except Failure Int :=
  (g.get_bytes ofs).map wordToI32

/-- Modelled from the spec: reading a stored word as a little-endian
`f32` and writing it back transfers the 32-bit pattern unchanged (the
source reads and writes `f32` values with `byteorder`, which round-trips
the bit pattern). -/
def floatRoundTrip (w : Word) : Word := w

/-- Modelled from the spec: `get_float`; the result is represented by
its 32-bit pattern. -/
def Globals.get_float (g : Globals) (ofs : Int) : Except Failure Word :=
  g.get_bytes ofs

/-- Modelled from the spec: `put_float`; the argument is represented by
its 32-bit pattern, so the store writes `floatRoundTrip` of the word the
value was read from. -/
def Globals.put_float (g : Globals) (val : Word) (ofs : Int) :
    Globals × Option Failure :=
  g.put_bytes (floatRoundTrip val) ofs

/-- Modelled from the spec: `get_vector` reads 3 consecutive words
("vector accessors validate ofs + 2 < len"). -/
def Globals.get_vector (g : Globals) (ofs : Int) :
    Except Failure (Word × Word × Word) :=
  match g.get_bytes ofs, g.get_bytes (ofs + 1), g.get_bytes (ofs + 2) with
  | .ok a, .ok b, .ok c => .ok (a, b, c)
  | _, _, _ => .error (.err "vector address out of range")

/-- Modelled from the spec: `put_vector` writes 3 consecutive words. -/
def Globals.put_vector (g : Globals) (v : Word × Word × Word) (ofs : Int) :
    Globals × Option Failure :=
  match g.put_float v.1 ofs with
  | (g1, some e) => (g1, some e)
  | (g1, none) =>
      match g1.put_float v.2.1 (ofs + 1) with
      | (g2, some e) => (g2, some e)
      | (g2, none) => g2.put_float v.2.2 (ofs + 2)

/-- Modelled from the spec: `get_string_id`; the stored word is a
nonnegative string id. -/
def Globals.get_string_id (g : Globals) (ofs : Int) : Except Failure Nat :=
  match g.get_bytes ofs with
  | .error e => .error e
  | .ok w =>
      if wordToI32 w < 0 then .error (.err "negative string id")
      else .ok (wordToI32 w).toNat

/-- Modelled from the spec: `put_string_id`. -/
def Globals.put_string_id (g : Globals) (id : Nat) (ofs : Int) :
    Globals × Option Failure :=
  g.put_bytes (id % 4294967296) ofs

/-- Modelled from the spec: `get_entity_id`; the stored word indexes the
entity array. -/
def Globals.get_entity_id (g : Globals) (ofs : Int) : Except Failure Int :=
  g.get_int ofs

/-- Modelled from the spec: `put_entity_id`. -/
def Globals.put_entity_id (g : Globals) (id : Int) (ofs : Int) :
    Globals × Option Failure :=
  g.put_bytes (usizeOfInt id % 4294967296) ofs

/-- Modelled from the spec: `get_function_id`; the stored word indexes
the function defs, a negative word is an error. -/
def Globals.get_function_id (g : Globals) (ofs : Int) : Except Failure Nat :=
  match g.get_bytes ofs with
  | .error e => .error e
  | .ok w =>
      if wordToI32 w < 0 then .error (.err "negative function id")
      else .ok (wordToI32 w).toNat

/-- Modelled from the spec: `put_function_id`. -/
def Globals.put_function_id (g : Globals) (id : Nat) (ofs : Int) :
    Globals × Option Failure :=
  g.put_bytes (id % 4294967296) ofs

/-- Modelled from the spec: `get_field_addr`; the stored word is an
offset into an entity record. -/
def Globals.get_field_addr (g : Globals) (ofs : Int) : Except Failure Int :=
  g.get_int ofs

/-- Modelled from the spec: `put_field_addr`. -/
def Globals.put_field_addr (g : Globals) (fld : Int) (ofs : Int) :
    Globals × Option Failure :=
  g.put_bytes (usizeOfInt fld % 4294967296) ofs

/-- Modelled from the spec: `get_entity_field`, the packed
entity-field word read as an `i32`. -/
def Globals.get_entity_field (g : Globals) (ofs : Int) : Except Failure Int :=
  g.get_int ofs

/-- Modelled from the spec: `put_entity_field`. -/
def Globals.put_entity_field (g : Globals) (v : Int) (ofs : Int) :
    Globals × Option Failure :=
  g.put_bytes (usizeOfInt v % 4294967296) ofs

/-- Modelled from the spec: `untyped_copy`, the raw one-word transfer
used by `store_v` inside the reserved static region. -/
def Globals.untyped_copy (g : Globals) (src dest : Int) :
    Globals × Option Failure :=
  match g.get_bytes src with
  | .error e => (g, some e)
  | .ok w => g.put_bytes w dest

/-! ## Entity list (`EntityList` of `entity.rs`, not among the sources;
modelled from the spec, section 4.D) -/

/-- A packed reference to one field of one entity. -/
structure EntityFieldAddr where
  entityId : Nat
  fieldAddr : Nat
deriving DecidableEq

/-- The entities of the world: each entity is a word array of length
`stride` ("each record mirrors global layout per field defs"). -/
structure EntityList where
  stride : Nat
  entities : List (List Word)
deriving DecidableEq

/-- Modelled from the spec: `ent_fld_addr_from_i32`,
`unpack(n) = (n / stride, n % stride)`. -/
def EntityList.entFldAddrFromI32 (el : EntityList) (n : Int) :
    EntityFieldAddr :=
  { entityId := usizeOfInt n / el.stride,
    fieldAddr := usizeOfInt n % el.stride }

/-- Modelled from the spec: `ent_fld_addr_to_i32`,
`pack(e, f) = e * stride + f`. -/
def EntityList.entFldAddrToI32 (el : EntityList) (a : EntityFieldAddr) : Int :=
  wordToI32 ((a.entityId * el.stride + a.fieldAddr) % 4294967296)

/-- Modelled from the spec: `try_get_entity(_mut)` bounds-checks the
entity id; a typed `put_*` on the entity bounds-checks the field offset
and stores the word. -/
def EntityList.putWordAt (el : EntityList) (entId fieldAddr : Nat)
    (w : Word) : EntityList × Option Failure :=
  match el.entities.get? entId with
  | none => (el, some (.err "no such entity"))
  | some e =>
      if fieldAddr < e.length then
        ({ el with entities := el.entities.set entId (e.set fieldAddr w) },
         none)
      else (el, some (.err "field address out of range"))

/-! ## Function and statement tables (`progs/functions.rs` and
`progs/ops.rs` are not among the sources; the shapes below follow the
spec, section 3, and the uses in `src/progs/mod.rs`) -/

/-- Kind of a function: `QuakeC(first_statement_index)` or
`BuiltIn(builtin_id)`. -/
inductive FunctionKind where
  | quakec (first : Nat)
  | builtin (id : Nat)
deriving DecidableEq

/-- A function definition (`FunctionDef`). -/
structure FunctionDef where
  kind : FunctionKind
  argStart : Nat
  locals : Nat
  nameId : Nat
  srcfileId : Nat
  argc : Nat
  argsz : List Nat
deriving DecidableEq

/-- The opcodes of the control-flow fragment of the dispatcher that the
claims exercise; the data-movement opcodes are embedded as the
standalone `store`/`storep` functions below, exactly as they are
standalone functions in the source. -/
inductive Opcode where
  | opIf
  | opIfNot
  | opGoto
  | opCall (argCount : Nat)
  | opDone
  | opReturn
deriving DecidableEq

/-- One bytecode statement `(opcode, a, b, c)`; the three arguments are
signed 16-bit values. -/
structure Statement where
  op : Opcode
  a : Int
  b : Int
  c : Int
deriving DecidableEq

/-- The loaded function table (`Functions`). -/
structure Functions where
  defs : List FunctionDef
  statements : List Statement
deriving DecidableEq

/-- Modelled from the spec: `Functions::get_def` is an O(1) indexed
lookup that fails on an out-of-range function id. -/
def Functions.get_def (fns : Functions) (f : Nat) :
    Except Failure FunctionDef :=
  match fns.defs.get? f with
  | some d => .ok d
  | none => .error (.err "no such function")

/-! ## Direct stores (`store_f` .. `store_fnc` in `src/progs/mod.rs`) -/

/-- Embedding of `store_f`. -/
def store_f (g : Globals) (src_ofs dest_ofs unused : Int) :
    Globals × Option Failure :=
  if unused ≠ 0 then (g, some (.err "Nonzero arg3 to STORE_F"))
  else
    match g.get_float src_ofs with
    | .error e => (g, some e)
    | .ok f => g.put_float f dest_ofs

/-- Embedding of `store_v`, with its special case: a destination inside
the reserved static region (`0 < dest < GLOBAL_STATIC_START`) is copied
with the raw untyped word transfer; any other destination is copied
word by word through the float accessors. -/
def store_v (g : Globals) (src_ofs dest_ofs unused : Int) :
    Globals × Option Failure :=
  if unused ≠ 0 then (g, some (.err "Nonzero arg3 to STORE_V"))
  else
    if 0 < dest_ofs ∧ dest_ofs < (GLOBAL_STATIC_START : Int) then
      match g.untyped_copy src_ofs dest_ofs with
      | (g0, some e) => (g0, some e)
      | (g0, none) =>
          match g0.untyped_copy (src_ofs + 1) (dest_ofs + 1) with
          | (g1, some e) => (g1, some e)
          | (g1, none) => g1.untyped_copy (src_ofs + 2) (dest_ofs + 2)
    else
      match g.get_float src_ofs with
      | .error e => (g, some e)
      | .ok f0 =>
          match g.put_float f0 dest_ofs with
          | (g0, some e) => (g0, some e)
          | (g0, none) =>
              match g0.get_float (src_ofs + 1) with
              | .error e => (g0, some e)
              | .ok f1 =>
                  match g0.put_float f1 (dest_ofs + 1) with
                  | (g1, some e) => (g1, some e)
                  | (g1, none) =>
                      match g1.get_float (src_ofs + 2) with
                      | .error e => (g1, some e)
                      | .ok f2 => g1.put_float f2 (dest_ofs + 2)

/-- Embedding of `store_s`. -/
def store_s (g : Globals) (src_ofs dest_ofs unused : Int) :
    Globals × Option Failure :=
  if unused ≠ 0 then (g, some (.err "Nonzero arg3 to STORE_S"))
  else
    match g.get_string_id src_ofs with
    | .error e => (g, some e)
    | .ok s => g.put_string_id s dest_ofs

/-- Embedding of `store_ent`. -/
def store_ent (g : Globals) (src_ofs dest_ofs unused : Int) :
    Globals × Option Failure :=
  if unused ≠ 0 then (g, some (.err "Nonzero arg3 to STORE_ENT"))
  else
    match g.get_entity_id src_ofs with
    | .error e => (g, some e)
    | .ok ent => g.put_entity_id ent dest_ofs

/-- Embedding of `store_fld`. -/
def store_fld (g : Globals) (src_ofs dest_ofs unused : Int) :
    Globals × Option Failure :=
  if unused ≠ 0 then (g, some (.err "Nonzero arg3 to STORE_FLD"))
  else
    match g.get_field_addr src_ofs with
    | .error e => (g, some e)
    | .ok fld => g.put_field_addr fld dest_ofs

/-- Embedding of `store_fnc`. -/
def store_fnc (g : Globals) (src_ofs dest_ofs unused : Int) :
    Globals × Option Failure :=
  if unused ≠ 0 then (g, some (.err "Nonzero arg3 to STORE_FNC"))
  else
    match g.get_function_id src_ofs with
    | .error e => (g, some e)
    | .ok fnc => g.put_function_id fnc dest_ofs

/-! ## Indirect stores (`storep_f` .. `storep_fnc` in
`src/progs/mod.rs`).  They mutate the entity list only; the globals are
read-only here, so the returned state is the entity list. -/

/-- Embedding of `storep_f`. -/
def storep_f (g : Globals) (ents : EntityList)
    (src_float_addr dst_ent_fld_addr unused : Int) :
    EntityList × Option Failure :=
  if unused ≠ 0 then (ents, some (.err "storep_f: nonzero arg3"))
  else
    match g.get_float src_float_addr with
    | .error e => (ents, some e)
    | .ok f =>
        match g.get_entity_field dst_ent_fld_addr with
        | .error e => (ents, some e)
        | .ok n =>
            let a := ents.entFldAddrFromI32 n
            ents.putWordAt a.entityId a.fieldAddr (floatRoundTrip f)

/-- Embedding of `storep_v`: reads the 3-word vector, then writes it
into the entity field by field. -/
def storep_v (g : Globals) (ents : EntityList)
    (src_vector_addr dst_ent_fld_addr unused : Int) :
    EntityList × Option Failure :=
  if unused ≠ 0 then (ents, some (.err "storep_v: nonzero arg3"))
  else
    match g.get_vector src_vector_addr with
    | .error e => (ents, some e)
    | .ok v =>
        match g.get_entity_field dst_ent_fld_addr with
        | .error e => (ents, some e)
        | .ok n =>
            let a := ents.entFldAddrFromI32 n
            match ents.putWordAt a.entityId a.fieldAddr v.1 with
            | (e0, some e) => (e0, some e)
            | (e0, none) =>
                match e0.putWordAt a.entityId (a.fieldAddr + 1) v.2.1 with
                | (e1, some e) => (e1, some e)
                | (e1, none) => e1.putWordAt a.entityId (a.fieldAddr + 2) v.2.2

/-- Embedding of `storep_s`. -/
def storep_s (g : Globals) (ents : EntityList)
    (src_string_id_addr dst_ent_fld_addr unused : Int) :
    EntityList × Option Failure :=
  if unused ≠ 0 then (ents, some (.err "storep_s: nonzero arg3"))
  else
    match g.get_string_id src_string_id_addr with
    | .error e => (ents, some e)
    | .ok s =>
        match g.get_entity_field dst_ent_fld_addr with
        | .error e => (ents, some e)
        | .ok n =>
            let a := ents.entFldAddrFromI32 n
            ents.putWordAt a.entityId a.fieldAddr (s % 4294967296)

/-- Embedding of `storep_ent`. -/
def storep_ent (g : Globals) (ents : EntityList)
    (src_entity_id_addr dst_ent_fld_addr unused : Int) :
    EntityList × Option Failure :=
  if unused ≠ 0 then (ents, some (.err "storep_ent: nonzero arg3"))
  else
    match g.get_entity_id src_entity_id_addr with
    | .error e => (ents, some e)
    | .ok ent =>
        match g.get_entity_field dst_ent_fld_addr with
        | .error e => (ents, some e)
        | .ok n =>
            let a := ents.entFldAddrFromI32 n
            ents.putWordAt a.entityId a.fieldAddr (usizeOfInt ent % 4294967296)

/-- Embedding of `storep_fnc`. -/
def storep_fnc (g : Globals) (ents : EntityList)
    (src_function_id_addr dst_ent_fld_addr unused : Int) :
    EntityList × Option Failure :=
  if unused ≠ 0 then (ents, some (.err "storep_fnc: nonzero arg3"))
  else
    match g.get_function_id src_function_id_addr with
    | .error e => (ents, some e)
    | .ok f =>
        match g.get_entity_field dst_ent_fld_addr with
        | .error e => (ents, some e)
        | .ok n =>
            let a := ents.entFldAddrFromI32 n
            ents.putWordAt a.entityId a.fieldAddr (f % 4294967296)

/-! ## Execution context (`ExecutionContext` in `src/progs/mod.rs`)

Both stacks are lists whose head is the most recently pushed element. -/

/-- A saved frame (`StackFrame`): the saved program counter and the
saved function id. -/
structure StackFrame where
  instrId : Nat
  funcId : Nat
deriving DecidableEq

/-- The mutable interpreter state of `ExecutionContext` (the shared
string table and function table are passed separately). -/
structure Ctx where
  pc : Nat
  currentFunction : Nat
  callStack : List StackFrame
  localStack : List Word
deriving DecidableEq

/-- Embedding of `ExecutionContext::create`: empty stacks, `pc = 0`,
`current_function = FunctionId(0)`. -/
def Ctx.create : Ctx :=
  { pc := 0, currentFunction := 0, callStack := [], localStack := [] }

/-- The `MAX_CALL_STACK_DEPTH` constant. -/
def MAX_CALL_STACK_DEPTH : Nat := 32

/-- The `MAX_LOCAL_STACK_DEPTH` constant. -/
def MAX_LOCAL_STACK_DEPTH : Nat := 2048

/-- The locals-saving loop of `enter_function`: pushes
`globals[arg_start + i]` for `i = idx, idx+1, ...` (`n` words in total)
onto the local stack; an out-of-range read stops the loop with the
partial pushes kept. -/
def saveLocals (g : Globals) (argStart : Nat) :
    Nat → Nat → List Word → List Word × Option Failure
  | _, 0, ls => (ls, none)
  | idx, n + 1, ls =>
      match g.get_bytes ((argStart + idx : Nat) : Int) with
      | .error e => (ls, some e)
      | .ok w => saveLocals g argStart (idx + 1) n (w :: ls)

/-- The inner loop of the argument copy of `enter_function`: for the
formal `arg`, copies component words `c = idx, ...` (`n` words) from
`GLOBAL_ADDR_ARG_0 + arg * 3 + c`; every word is stored at `arg_start`
(the source drops the component offset on the destination side). -/
def copyArgComponents (argStart arg : Nat) :
    Nat → Nat → Globals → Globals × Option Failure
  | _, 0, g => (g, none)
  | idx, n + 1, g =>
      match g.get_bytes ((GLOBAL_ADDR_ARG_0 + arg * 3 + idx : Nat) : Int) with
      | .error e => (g, some e)
      | .ok w =>
          match g.put_bytes w ((argStart : Nat) : Int) with
          | (g1, some e) => (g1, some e)
          | (g1, none) => copyArgComponents argStart arg (idx + 1) n g1

/-- The outer loop of the argument copy of `enter_function`: iterates
the formals `arg = idx, ...` (`n` formals); `argsz[arg]` is a fixed
8-element array in the source, indexing past it is a panic. -/
def copyArgs (d : FunctionDef) : Nat → Nat → Globals →
    Globals × Option Failure
  | _, 0, g => (g, none)
  | idx, n + 1, g =>
      match d.argsz.get? idx with
      | none => (g, some (.panicked "index out of bounds: argsz"))
      | some sz =>
          match copyArgComponents d.argStart idx 0 sz g with
          | (g1, some e) => (g1, some e)
          | (g1, none) => copyArgs d (idx + 1) n g1

/-- Embedding of `ExecutionContext::enter_function`.  Note the order of
the source: the frame (holding the *unincremented* `pc`) is pushed
before the overflow checks, and a failing check leaves it pushed. -/
def enterFunction (fns : Functions) (ctx : Ctx) (g : Globals) (f : Nat) :
    Ctx × Globals × Option Failure :=
  match fns.get_def f with
  | .error e => (ctx, g, some e)
  | .ok d =>
      let cs := { instrId := ctx.pc, funcId := ctx.currentFunction } ::
        ctx.callStack
      if MAX_CALL_STACK_DEPTH ≤ cs.length then
        ({ ctx with callStack := cs }, g, some (.err "call stack overflow"))
      else if MAX_LOCAL_STACK_DEPTH < ctx.localStack.length + d.locals then
        ({ ctx with callStack := cs }, g, some (.err "local stack overflow"))
      else
        match saveLocals g d.argStart 0 d.locals ctx.localStack with
        | (ls, some e) =>
            ({ ctx with callStack := cs, localStack := ls }, g, some e)
        | (ls, none) =>
            match copyArgs d 0 d.argc g with
            | (g1, some e) =>
                ({ ctx with callStack := cs, localStack := ls }, g1, some e)
            | (g1, none) =>
                match d.kind with
                | .builtin _ =>
                    ({ ctx with callStack := cs, localStack := ls,
                                currentFunction := f }, g1,
                     some (.panicked
                       "built-in functions should not be called with enter_function()"))
                | .quakec first =>
                    ({ pc := first, currentFunction := f,
                       callStack := cs, localStack := ls }, g1, none)

/-- The locals-restoring loop of `leave_function`: for
`i = n-1, ..., 0` pops a word (`unwrap` panics on an empty local stack)
and writes it to `arg_start + i`. -/
def restoreLocals (argStart : Nat) :
    Nat → List Word → Globals → List Word × Globals × Option Failure
  | 0, ls, g => (ls, g, none)
  | n + 1, ls, g =>
      match ls with
      | [] => ([], g, some (.panicked "called Option::unwrap() on a None value"))
      | w :: rest =>
          match g.put_bytes w ((argStart + n : Nat) : Int) with
          | (g1, some e) => (rest, g1, some e)
          | (g1, none) => restoreLocals argStart n rest g1

/-- Embedding of `ExecutionContext::leave_function`. -/
def leaveFunction (fns : Functions) (ctx : Ctx) (g : Globals) :
    Ctx × Globals × Option Failure :=
  match fns.get_def ctx.currentFunction with
  | .error e => (ctx, g, some e)
  | .ok d =>
      match restoreLocals d.argStart d.locals ctx.localStack g with
      | (ls, g1, some e) => ({ ctx with localStack := ls }, g1, some e)
      | (ls, g1, none) =>
          match ctx.callStack with
          | [] => ({ ctx with localStack := ls }, g1,
                   some (.err "call stack underflow"))
          | fr :: rest =>
              ({ pc := fr.instrId, currentFunction := fr.funcId,
                 callStack := rest, localStack := ls }, g1, none)

/-- Result of an `execute_program` run: the final interpreter state, a
possible failure, and the number of statements dispatched. -/
inductive ExecOutcome where
  | ok (ctx : Ctx) (globals : Globals) (steps : Nat)
  | fail (ctx : Ctx) (globals : Globals) (f : Failure) (steps : Nat)
deriving DecidableEq

/-- Number of statements the run dispatched. -/
def ExecOutcome.steps : ExecOutcome → Nat
  | .ok _ _ s => s
  | .fail _ _ _ s => s

/-- Whether the run ended in a panic carrying the given message. -/
def ExecOutcome.isPanicWith (o : ExecOutcome) (msg : String) : Bool :=
  match o with
  | .fail _ _ (.panicked m) _ => m == msg
  | _ => false

/-- Whether the run ended by returning a `ProgsError` value. -/
def ExecOutcome.isReturnedErr : ExecOutcome → Bool
  | .fail _ _ (.err _) _ => true
  | _ => false

/-- The fetch-decode-dispatch loop of `ExecutionContext::execute_program`,
with the `runaway` counter as the recursion measure.  Each iteration
first tests the exit condition (`call_stack.len() != exit_depth`), then
decrements the counter and panics with "runaway program" when it
reaches 0, then fetches `statements[pc]` (a panic when `pc` is out of
range) and dispatches.  The source keeps the counter in an `i32` and
always starts it at 100000, so it never goes below 0 before the panic;
the `0` pattern below is unreachable from `executeProgram` and is given
the same panic.  `steps` counts dispatched statements.  Control-flow
details preserved from the source: the `If`/`IfNot` arms execute
`continue` whether or not the branch is taken, so a fall-through leaves
`pc` unchanged; the `Call` arm falls through to the `pc += 1` at the
bottom of the loop after `enter_function` has set `pc`; `Done`/`Return`
execute `continue` after `leave_function`, so the restored `pc` is not
incremented.  The built-in table of the `Call` arm is engine services
outside this fragment; every arm of it that a claim could reach is
`unimplemented!()` in the source, so it is embedded as a panic. -/
def execLoop (fns : Functions) (exitDepth : Nat) :
    Nat → Ctx → Globals → Nat → ExecOutcome
  | 0, ctx, g, steps =>
      if ctx.callStack.length = exitDepth then .ok ctx g steps
      else .fail ctx g (.panicked "runaway program") steps
  | r + 1, ctx, g, steps =>
      if ctx.callStack.length = exitDepth then .ok ctx g steps
      else if r = 0 then .fail ctx g (.panicked "runaway program") steps
      else
        match fns.statements.get? ctx.pc with
        | none => .fail ctx g (.panicked "index out of bounds: statements") steps
        | some st =>
            match st.op with
            | .opIf =>
                match g.get_int st.a with
                | .error e => .fail ctx g e (steps + 1)
                | .ok cond =>
                    if cond ≠ 0 then
                      match g.get_int st.b with
                      | .error e => .fail ctx g e (steps + 1)
                      | .ok d =>
                          execLoop fns exitDepth r
                            { ctx with pc := usizeOfInt ((ctx.pc : Int) + d) }
                            g (steps + 1)
                    else
                      execLoop fns exitDepth r ctx g (steps + 1)
            | .opIfNot =>
                match g.get_int st.a with
                | .error e => .fail ctx g e (steps + 1)
                | .ok cond =>
                    if cond = 0 then
                      match g.get_int st.b with
                      | .error e => .fail ctx g e (steps + 1)
                      | .ok d =>
                          execLoop fns exitDepth r
                            { ctx with pc := usizeOfInt ((ctx.pc : Int) + d) }
                            g (steps + 1)
                    else
                      execLoop fns exitDepth r ctx g (steps + 1)
            | .opGoto =>
                match g.get_int st.a with
                | .error e => .fail ctx g e (steps + 1)
                | .ok d =>
                    execLoop fns exitDepth r
                      { ctx with pc := usizeOfInt ((ctx.pc : Int) + d) }
                      g (steps + 1)
            | .opCall _ =>
                match g.get_function_id st.a with
                | .error e => .fail ctx g e (steps + 1)
                | .ok fid =>
                    if fid = 0 then
                      .fail ctx g (.panicked "NULL function") (steps + 1)
                    else
                      match fns.get_def fid with
                      | .error e => .fail ctx g e (steps + 1)
                      | .ok d =>
                          match d.kind with
                          | .builtin _ =>
                              .fail ctx g
                                (.panicked "not implemented") (steps + 1)
                          | .quakec _ =>
                              match enterFunction fns ctx g fid with
                              | (ctx1, g1, some e) =>
                                  .fail ctx1 g1 e (steps + 1)
                              | (ctx1, g1, none) =>
                                  execLoop fns exitDepth r
                                    { ctx1 with pc := ctx1.pc + 1 }
                                    g1 (steps + 1)
            | .opDone | .opReturn =>
                match g.get_bytes st.a, g.get_bytes st.b, g.get_bytes st.c with
                | .ok v1, .ok v2, .ok v3 =>
                    (match g.put_bytes v1 ((GLOBAL_ADDR_RETURN : Nat) : Int) with
                     | (g0, some e) => .fail ctx g0 e (steps + 1)
                     | (g0, none) =>
                         match g0.put_bytes v2 ((GLOBAL_ADDR_RETURN + 1 : Nat) : Int) with
                         | (g1, some e) => .fail ctx g1 e (steps + 1)
                         | (g1, none) =>
                             match g1.put_bytes v3 ((GLOBAL_ADDR_RETURN + 2 : Nat) : Int) with
                             | (g2, some e) => .fail ctx g2 e (steps + 1)
                             | (g2, none) =>
                                 match leaveFunction fns ctx g2 with
                                 | (ctx1, g3, some e) =>
                                     .fail ctx1 g3 e (steps + 1)
                                 | (ctx1, g3, none) =>
                                     execLoop fns exitDepth r ctx1 g3 (steps + 1))
                | .error e, _, _ => .fail ctx g e (steps + 1)
                | .ok _, .error e, _ => .fail ctx g e (steps + 1)
                | .ok _, .ok _, .error e => .fail ctx g e (steps + 1)

/-- Embedding of `ExecutionContext::execute_program`: record the exit
depth, enter the function (an error propagates with `?`), then run the
loop with the runaway counter at 100000. -/
def executeProgram (fns : Functions) (ctx : Ctx) (g : Globals) (f : Nat) :
    ExecOutcome :=
  let exitDepth := ctx.callStack.length
  match enterFunction fns ctx g f with
  | (ctx1, g1, some e) => .fail ctx1 g1 e 0
  | (ctx1, g1, none) => execLoop fns exitDepth 100000 ctx1 g1 0

/-! ## Loader header (`load` in `src/progs/mod.rs`, lines 383-403)

`load` reads the whole file through a buffered cursor; the part decided
by the claims is the prefix up to the entity field count: the two
`assert!` checks on version and CRC, the six lumps, and the entity
stride.  A read past the end of the byte buffer is the `io::Error` that
`read_i32` returns through `?`. -/

/-- The `VERSION` constant. -/
def VERSION : Int := 6

/-- The `CRC` constant. -/
def CRC : Int := 5927

/-- Read a little-endian `i32` from the byte list at byte offset
`pos`; `none` models the `io::Error` of reading past the end. -/
def readI32LE (data : List Nat) (pos : Nat) : Option Int :=
  match data.get? pos, data.get? (pos + 1), data.get? (pos + 2),
      data.get? (pos + 3) with
  | some b0, some b1, some b2, some b3 =>
      some (wordToI32 ((b0 % 256) + 256 * (b1 % 256) + 65536 * (b2 % 256) +
        16777216 * (b3 % 256)))
  | _, _, _, _ => none

/-- The lump-directory reading loop of `load`: `count` pairs of
`(offset, count)` read sequentially from byte position `pos`, each
value cast `as usize`. -/
def readLumps (data : List Nat) :
    Nat → Nat → List (Nat × Nat) → Option (List (Nat × Nat) × Nat)
  | 0, pos, acc => some (acc.reverse, pos)
  | n + 1, pos, acc =>
      match readI32LE data pos, readI32LE data (pos + 4) with
      | some off, some cnt =>
          readLumps data n (pos + 8) ((usizeOfInt off, usizeOfInt cnt) :: acc)
      | _, _ => none

/-- Embedding of the header prefix of `load`: version and CRC asserts
(a failed `assert!` is a panic, not a returned error), the six lumps,
and the entity field word count. -/
def loadHeader (data : List Nat) :
    Except Failure (List (Nat × Nat) × Nat) :=
  match readI32LE data 0 with
  | none => .error (.err "I/O error: failed to fill whole buffer")
  | some v =>
      if v ≠ VERSION then
        .error (.panicked "assertion failed: version")
      else
        match readI32LE data 4 with
        | none => .error (.err "I/O error: failed to fill whole buffer")
        | some c =>
            if c ≠ CRC then
              .error (.panicked "assertion failed: crc")
            else
              match readLumps data 6 8 [] with
              | none => .error (.err "I/O error: failed to fill whole buffer")
              | some (lumps, pos) =>
                  match readI32LE data pos with
                  | none => .error (.err "I/O error: failed to fill whole buffer")
                  | some entCount => .ok (lumps, usizeOfInt entCount)

/-! ## Operation sequences over the two stacks (analysis harness for the
stack-cap invariant; the operations themselves are the embedded
`enterFunction` and `leaveFunction`). -/

/-- One stack operation. -/
inductive StackOp where
  | enter (f : Nat)
  | leave
deriving DecidableEq

/-- Run a sequence of `enter_function` / `leave_function` calls,
stopping at the first call that reports a failure (the state that call
left behind is kept). -/
def runOps (fns : Functions) :
    List StackOp → Ctx → Globals → Ctx × Globals × Option Failure
  | [], ctx, g => (ctx, g, none)
  | op :: rest, ctx, g =>
      match (match op with
             | .enter f => enterFunction fns ctx g f
             | .leave => leaveFunction fns ctx g) with
      | (ctx1, g1, some e) => (ctx1, g1, some e)
      | (ctx1, g1, none) => runOps fns rest ctx1 g1

/-! ## Theorems -/

/-- C9: for a string table whose byte counter is at or past the lump
length (its initial value) and whose next id is still free (so the
insertion does not hit the duplicate-id panic) and fits in an `i32`,
`insert` hands out the current counter as the id, `get` of that id
returns the inserted string, `TryInto<i32>` and `id_from_i32` round-trip
the id, and the counter advances by the inserted byte length while the
lump is untouched -- so inserted ids stay at or above the lump length
and never collide with lump offsets. -/
theorem stringTable_insert_get_roundtrip (st : StringTable) (s : List Nat)
    (hlump : st.lump.length ≤ st.byteCount)
    (hfree : st.table.lookup st.byteCount = none)
    (hsize : st.byteCount ≤ 2147483647) :
    ∃ st' : StringTable,
      st.insert s = .ok (st.byteCount, st') ∧
      st'.get st.byteCount = some s ∧
      stringIdTryIntoI32 st.byteCount = .ok (st.byteCount : Int) ∧
      st'.idFromI32 (st.byteCount : Int) = .ok st.byteCount ∧
      st'.byteCount = st.byteCount + s.length ∧
      st'.lump = st.lump := by
  refine ⟨{ st with table := (st.byteCount, s) :: st.table,
                    byteCount := st.byteCount + s.length }, ?_, ?_, ?_, ?_, rfl, rfl⟩
  · simp [StringTable.insert, hfree]
  · have hnot : ¬ st.byteCount < st.lump.length := by omega
    simp [StringTable.get, hnot, List.lookup]
  · have hnot : ¬ 2147483647 < st.byteCount := by omega
    simp [stringIdTryIntoI32, hnot]
  · have hnonneg : ¬ ((st.byteCount : Int) < 0) := by
      exact not_lt.mpr (Int.natCast_nonneg _)
    simp [StringTable.idFromI32, hnonneg, List.lookup]

/-- Witness for C9 at a concrete table and string. -/
theorem stringTable_insert_get_roundtrip_witness :
    (1 ≤ 1 ∧ ([] : List (Nat × List Nat)).lookup 1 = none) ∧
    ∃ st' : StringTable,
      StringTable.insert { byteCount := 1, lump := [0], table := [] } [97] =
        .ok (1, st') ∧
      st'.get 1 = some [97] ∧
      stringIdTryIntoI32 1 = .ok (1 : Int) ∧
      st'.idFromI32 (1 : Int) = .ok 1 ∧
      st'.byteCount = 1 + 1 ∧
      st'.lump = [0] := by
  constructor
  · constructor
    · decide
    · decide
  · have h := stringTable_insert_get_roundtrip
      { byteCount := 1, lump := [0], table := [] } [97]
      (by decide) (by decide) (by decide)
    simpa using h

/-- C10: inserting the empty string hands out the current counter and
does not advance it (the inserted length is 0), so the immediately
following insert -- of any string -- computes the same id, finds it
already present in the side map, and hits the duplicate-id panic. -/
theorem stringTable_insert_empty_then_insert_panics (st : StringTable)
    (t : List Nat)
    (hfree : st.table.lookup st.byteCount = none) :
    ∃ st' : StringTable,
      st.insert [] = .ok (st.byteCount, st') ∧
      st'.byteCount = st.byteCount ∧
      st'.insert t = .error (.panicked "duplicate ID in string table") := by
  refine ⟨{ st with table := (st.byteCount, ([] : List Nat)) :: st.table,
                    byteCount := st.byteCount + ([] : List Nat).length },
          ?_, by simp, ?_⟩
  · simp [StringTable.insert, hfree]
  · simp [StringTable.insert, List.lookup]

/-- Witness for C10 at a concrete table and follow-up string. -/
theorem stringTable_insert_empty_then_insert_panics_witness :
    (([] : List (Nat × List Nat)).lookup 5 = none) ∧
    ∃ st' : StringTable,
      StringTable.insert { byteCount := 5, lump := [0], table := [] } [] =
        .ok (5, st') ∧
      st'.byteCount = 5 ∧
      st'.insert [98] = .error (.panicked "duplicate ID in string table") := by
  exact ⟨by decide,
    stringTable_insert_empty_then_insert_panics
      { byteCount := 5, lump := [0], table := [] } [98] (by decide)⟩

/-- C6: every direct store opcode and every indirect store opcode checks
its third statement argument first and returns the discipline error when
it is nonzero; the returned state is the input state unchanged, so no
global word and no entity field has been modified. -/
theorem stores_reject_nonzero_arg3 (g : Globals) (ents : EntityList)
    (s d u : Int) (hu : u ≠ 0) :
    store_f g s d u = (g, some (.err "Nonzero arg3 to STORE_F")) ∧
    store_v g s d u = (g, some (.err "Nonzero arg3 to STORE_V")) ∧
    store_s g s d u = (g, some (.err "Nonzero arg3 to STORE_S")) ∧
    store_ent g s d u = (g, some (.err "Nonzero arg3 to STORE_ENT")) ∧
    store_fld g s d u = (g, some (.err "Nonzero arg3 to STORE_FLD")) ∧
    store_fnc g s d u = (g, some (.err "Nonzero arg3 to STORE_FNC")) ∧
    storep_f g ents s d u = (ents, some (.err "storep_f: nonzero arg3")) ∧
    storep_v g ents s d u = (ents, some (.err "storep_v: nonzero arg3")) ∧
    storep_s g ents s d u = (ents, some (.err "storep_s: nonzero arg3")) ∧
    storep_ent g ents s d u = (ents, some (.err "storep_ent: nonzero arg3")) ∧
    storep_fnc g ents s d u = (ents, some (.err "storep_fnc: nonzero arg3")) := by
  refine ⟨?_, ?_, ?_, ?_, ?_, ?_, ?_, ?_, ?_, ?_, ?_⟩ <;>
    simp [store_f, store_v, store_s, store_ent, store_fld, store_fnc,
      storep_f, storep_v, storep_s, storep_ent, storep_fnc, hu]

/-- Witness for C6 at concrete state and a nonzero third argument. -/
theorem stores_reject_nonzero_arg3_witness :
    ((1 : Int) ≠ 0) ∧
    (store_f { addrs := [0, 0] } 0 1 1 =
      ({ addrs := [0, 0] }, some (.err "Nonzero arg3 to STORE_F")) ∧
     store_v { addrs := [0, 0] } 0 1 1 =
      ({ addrs := [0, 0] }, some (.err "Nonzero arg3 to STORE_V")) ∧
     store_s { addrs := [0, 0] } 0 1 1 =
      ({ addrs := [0, 0] }, some (.err "Nonzero arg3 to STORE_S")) ∧
     store_ent { addrs := [0, 0] } 0 1 1 =
      ({ addrs := [0, 0] }, some (.err "Nonzero arg3 to STORE_ENT")) ∧
     store_fld { addrs := [0, 0] } 0 1 1 =
      ({ addrs := [0, 0] }, some (.err "Nonzero arg3 to STORE_FLD")) ∧
     store_fnc { addrs := [0, 0] } 0 1 1 =
      ({ addrs := [0, 0] }, some (.err "Nonzero arg3 to STORE_FNC")) ∧
     storep_f { addrs := [0, 0] } { stride := 1, entities := [[0]] } 0 1 1 =
      ({ stride := 1, entities := [[0]] }, some (.err "storep_f: nonzero arg3")) ∧
     storep_v { addrs := [0, 0] } { stride := 1, entities := [[0]] } 0 1 1 =
      ({ stride := 1, entities := [[0]] }, some (.err "storep_v: nonzero arg3")) ∧
     storep_s { addrs := [0, 0] } { stride := 1, entities := [[0]] } 0 1 1 =
      ({ stride := 1, entities := [[0]] }, some (.err "storep_s: nonzero arg3")) ∧
     storep_ent { addrs := [0, 0] } { stride := 1, entities := [[0]] } 0 1 1 =
      ({ stride := 1, entities := [[0]] }, some (.err "storep_ent: nonzero arg3")) ∧
     storep_fnc { addrs := [0, 0] } { stride := 1, entities := [[0]] } 0 1 1 =
      ({ stride := 1, entities := [[0]] }, some (.err "storep_fnc: nonzero arg3"))) := by
  exact ⟨by decide,
    stores_reject_nonzero_arg3 { addrs := [0, 0] }
      { stride := 1, entities := [[0]] } 0 1 1 (by decide)⟩

/-- C5 counterexample: on a buffer whose first `i32` word is 7 (and
whose second is the correct CRC 5927), `load` does not return a format
error value -- the failed `assert!` is a panic; likewise for a buffer
with the correct version but a wrong CRC. -/
theorem loadHeader_bad_version_panics_not_err :
    exIsPanic (loadHeader [7, 0, 0, 0, 39, 23, 0, 0]) = true ∧
    exIsErrReturn (loadHeader [7, 0, 0, 0, 39, 23, 0, 0]) = false ∧
    exIsPanic (loadHeader [6, 0, 0, 0, 0, 0, 0, 0]) = true ∧
    exIsErrReturn (loadHeader [6, 0, 0, 0, 0, 0, 0, 0]) = false := by
  decide

/-- C5 (amended): for every input byte buffer whose first `i32` word is
readable but not 6, or whose first word is 6 and whose second `i32`
word is readable but not 5927, `load` fails by an assertion panic
before reading anything else; the panic unwinds through the `load` call
to the caller (it is not a returned `ProgsError` value). -/
theorem loadHeader_checks_version_and_crc (data : List Nat) (v c : Int)
    (hv : readI32LE data 0 = some v)
    (hc : readI32LE data 4 = some c)
    (hbad : ¬(v = VERSION ∧ c = CRC)) :
    exIsPanic (loadHeader data) = true ∧
    exIsErrReturn (loadHeader data) = false := by
  by_cases hveq : v = VERSION
  · have hcne : c ≠ CRC := fun h => hbad ⟨hveq, h⟩
    simp [loadHeader, hv, hc, hveq, hcne, exIsPanic, exIsErrReturn]
  · simp [loadHeader, hv, hveq, exIsPanic, exIsErrReturn]

/-- Witness for C5 at a concrete byte buffer (version word 7, correct
CRC word). -/
theorem loadHeader_checks_version_and_crc_witness :
    (readI32LE [7, 0, 0, 0, 39, 23, 0, 0] 0 = some 7 ∧
     readI32LE [7, 0, 0, 0, 39, 23, 0, 0] 4 = some 5927 ∧
     ¬((7 : Int) = VERSION ∧ (5927 : Int) = CRC)) ∧
    (exIsPanic (loadHeader [7, 0, 0, 0, 39, 23, 0, 0]) = true ∧
     exIsErrReturn (loadHeader [7, 0, 0, 0, 39, 23, 0, 0]) = false) := by
  exact ⟨⟨by decide, by decide, by decide⟩,
    loadHeader_checks_version_and_crc [7, 0, 0, 0, 39, 23, 0, 0] 7 5927
      (by decide) (by decide) (by decide)⟩

/-! ## Concrete setup for the argument-copy behaviour of
`enter_function` (C3): one function taking a single vector formal
(`argc = 1`, `argsz[0] = 3`) whose locals region starts at 28, with the
three argument words `(11, 12, 13)` preloaded into the first argument
slot. -/

/-- Function 1 of the C3 setup: one 3-word (vector) formal at
`arg_start = 28`. -/
def c3Def : FunctionDef :=
  { kind := .quakec 0, argStart := 28, locals := 0, nameId := 0,
    srcfileId := 0, argc := 1, argsz := [3, 0, 0, 0, 0, 0, 0, 0] }

/-- Function table of the C3 setup. -/
def c3Fns : Functions :=
  { defs := [{ kind := .quakec 0, argStart := 0, locals := 0, nameId := 0,
               srcfileId := 0, argc := 0, argsz := [0, 0, 0, 0, 0, 0, 0, 0] },
             c3Def],
    statements := [{ op := .opDone, a := 0, b := 0, c := 0 }] }

/-- Globals of the C3 setup: 32 words, with
`ARG0..ARG0+2 = (11, 12, 13)` at addresses 4, 5, 6 and zeroes in the
locals region 28..30. -/
def c3Globals : Globals :=
  { addrs := (List.range 32).map
      (fun i => if i = 4 then 11 else if i = 5 then 12 else
                if i = 6 then 13 else 0) }

/-- C3: `enter_function` on a function with one 3-word vector formal
succeeds, but every component word is written to `arg_start` itself:
afterwards `globals[28] = 13` (the last component overwrote the earlier
ones) and `globals[29]` and `globals[30]` still hold 0 -- not
`(11, 12, 13)` at `arg_start + 0, + 1, + 2` as the claim states.  The
argument slot itself is read correctly (`globals[4..6] = (11, 12, 13)`
is untouched). -/
theorem enterFunction_arg_copy_drops_component_offset :
    (enterFunction c3Fns Ctx.create c3Globals 1).2.2 = none ∧
    (enterFunction c3Fns Ctx.create c3Globals 1).2.1.addrs.get? 28 = some 13 ∧
    (enterFunction c3Fns Ctx.create c3Globals 1).2.1.addrs.get? 29 = some 0 ∧
    (enterFunction c3Fns Ctx.create c3Globals 1).2.1.addrs.get? 30 = some 0 ∧
    (enterFunction c3Fns Ctx.create c3Globals 1).2.1.addrs.get? 4 = some 11 ∧
    (enterFunction c3Fns Ctx.create c3Globals 1).2.1.addrs.get? 5 = some 12 ∧
    (enterFunction c3Fns Ctx.create c3Globals 1).2.1.addrs.get? 6 = some 13 := by
  decide

/-- A run that ended in a panic did not end by returning an error
value. -/
theorem isPanicWith_not_isReturnedErr (o : ExecOutcome) (m : String)
    (h : o.isPanicWith m = true) : o.isReturnedErr = false := by
  cases o with
  | ok _ _ _ => rfl
  | fail _ _ f _ => cases f with
    | err _ => simp [ExecOutcome.isPanicWith] at h
    | panicked _ => rfl

/-! ## Concrete setup for the call/return program counter behaviour
(C1): function 1 (`main`, entry 0) calls function 2 (`callee`, entry 2)
through the function id stored in `globals[30]`; the callee returns at
once.  Statement 1 is the `Done` of `main` that the claim expects to
run after the call returns. -/

/-- Function table of the C1 setup. -/
def c1Fns : Functions :=
  { defs := [{ kind := .quakec 0, argStart := 0, locals := 0, nameId := 0,
               srcfileId := 0, argc := 0, argsz := [0, 0, 0, 0, 0, 0, 0, 0] },
             { kind := .quakec 0, argStart := 0, locals := 0, nameId := 0,
               srcfileId := 0, argc := 0, argsz := [0, 0, 0, 0, 0, 0, 0, 0] },
             { kind := .quakec 2, argStart := 0, locals := 0, nameId := 0,
               srcfileId := 0, argc := 0, argsz := [0, 0, 0, 0, 0, 0, 0, 0] }],
    statements := [{ op := .opCall 0, a := 30, b := 0, c := 0 },
                   { op := .opDone, a := 0, b := 0, c := 0 },
                   { op := .opDone, a := 0, b := 0, c := 0 },
                   { op := .opDone, a := 0, b := 0, c := 0 }] }

/-- Globals of the C1 setup: 32 zero words except `globals[30] = 2`,
the id of the callee. -/
def c1Globals : Globals :=
  { addrs := (List.range 32).map (fun i => if i = 30 then 2 else 0) }

/-- State of the C1 run about to dispatch the `Call` statement of
`main`. -/
def c1S0 : Ctx :=
  { pc := 0, currentFunction := 1, callStack := [⟨0, 0⟩], localStack := [] }

/-- State of the C1 run inside the callee (the saved frame holds
`instr_id = 0`, the address of the `Call` statement itself). -/
def c1S1 : Ctx :=
  { pc := 3, currentFunction := 2, callStack := [⟨0, 1⟩, ⟨0, 0⟩],
    localStack := [] }

/-- The C1 run alternates between the two states `c1S0` and `c1S1`
forever (the `Done` of the callee restores `pc = 0`, the address of the
`Call` statement, which is then re-dispatched), so from either state
the loop always exhausts the runaway counter. -/
theorem c1_cycle_runaway (r : Nat) : ∀ s : Nat,
    (execLoop c1Fns 0 (r + 1) c1S0 c1Globals s).isPanicWith
      "runaway program" = true ∧
    (execLoop c1Fns 0 (r + 1) c1S1 c1Globals s).isPanicWith
      "runaway program" = true := by
  induction r with
  | zero => intro s; exact ⟨rfl, rfl⟩
  | succ r ih =>
      intro s
      constructor
      · have h : execLoop c1Fns 0 (r + 1 + 1) c1S0 c1Globals s =
            execLoop c1Fns 0 (r + 1) c1S1 c1Globals (s + 1) := rfl
        rw [h]
        exact (ih (s + 1)).2
      · have h : execLoop c1Fns 0 (r + 1 + 1) c1S1 c1Globals s =
            execLoop c1Fns 0 (r + 1) c1S0 c1Globals (s + 1) := rfl
        rw [h]
        exact (ih (s + 1)).1

/-- C1: the frame that `enter_function` pushes for the call dispatched
from `c1S0` (the `Call` statement at `pc = 0`) holds `instr_id = 0` --
the unincremented address of the `Call` statement itself, not 1, the
address of the statement after it; consequently after the `Done` of
the callee the restored `pc` re-executes the `Call` and the run of `main`
never reaches its own `Done` at 1: it exhausts the runaway counter and
panics instead of resuming after the call. -/
theorem call_return_reexecutes_call_statement :
    (enterFunction c1Fns c1S0 c1Globals 2).1.callStack =
      [⟨0, 1⟩, ⟨0, 0⟩] ∧
    (executeProgram c1Fns Ctx.create c1Globals 1).isPanicWith
      "runaway program" = true := by
  constructor
  · decide
  · have h : executeProgram c1Fns Ctx.create c1Globals 1 =
        execLoop c1Fns 0 100000 c1S0 c1Globals 0 := rfl
    rw [h]
    have h2 : (100000 : Nat) = 99999 + 1 := by norm_num
    rw [h2]
    exact (c1_cycle_runaway 99999 0).1

/-! ## Concrete setup for the conditional fall-through behaviour (C2):
function 1 runs `If 10, 11` (respectively `IfNot 10, 11`) followed by a
`Done`.  For the `If` program `globals[10] = 0`, so the branch is not
taken; for the `IfNot` program `globals[10] = 1`, so its branch is not
taken either.  In both cases the claim expects `pc` to advance to the
`Done` at 1. -/

/-- Function table of the C2 `If` program. -/
def c2Fns : Functions :=
  { defs := [{ kind := .quakec 0, argStart := 0, locals := 0, nameId := 0,
               srcfileId := 0, argc := 0, argsz := [0, 0, 0, 0, 0, 0, 0, 0] },
             { kind := .quakec 0, argStart := 0, locals := 0, nameId := 0,
               srcfileId := 0, argc := 0, argsz := [0, 0, 0, 0, 0, 0, 0, 0] }],
    statements := [{ op := .opIf, a := 10, b := 11, c := 0 },
                   { op := .opDone, a := 0, b := 0, c := 0 }] }

/-- Function table of the C2 `IfNot` program. -/
def c2FnsNot : Functions :=
  { defs := c2Fns.defs,
    statements := [{ op := .opIfNot, a := 10, b := 11, c := 0 },
                   { op := .opDone, a := 0, b := 0, c := 0 }] }

/-- Globals of the C2 `If` program: 12 zero words
(`globals[10] = 0`). -/
def c2Globals : Globals := { addrs := List.replicate 12 0 }

/-- Globals of the C2 `IfNot` program: `globals[10] = 1`. -/
def c2GlobalsNot : Globals :=
  { addrs := (List.range 12).map (fun i => if i = 10 then 1 else 0) }

/-- State of the C2 runs about to dispatch the conditional at
`pc = 0`. -/
def c2S : Ctx :=
  { pc := 0, currentFunction := 1, callStack := [⟨0, 0⟩], localStack := [] }

/-- A non-taken `If` leaves the state unchanged (the arm executes
`continue` without incrementing `pc`), so the loop re-dispatches the
same statement until the runaway counter is exhausted; same for a
non-taken `IfNot`. -/
theorem c2_cycle_runaway (r : Nat) : ∀ s : Nat,
    (execLoop c2Fns 0 (r + 1) c2S c2Globals s).isPanicWith
      "runaway program" = true ∧
    (execLoop c2FnsNot 0 (r + 1) c2S c2GlobalsNot s).isPanicWith
      "runaway program" = true := by
  induction r with
  | zero => intro s; exact ⟨rfl, rfl⟩
  | succ r ih =>
      intro s
      constructor
      · have h : execLoop c2Fns 0 (r + 1 + 1) c2S c2Globals s =
            execLoop c2Fns 0 (r + 1) c2S c2Globals (s + 1) := rfl
        rw [h]
        exact (ih (s + 1)).1
      · have h : execLoop c2FnsNot 0 (r + 1 + 1) c2S c2GlobalsNot s =
            execLoop c2FnsNot 0 (r + 1) c2S c2GlobalsNot (s + 1) := rfl
        rw [h]
        exact (ih (s + 1)).2

/-- C2: an `If` whose condition word is zero (and an `IfNot` whose
condition word is nonzero) leaves `pc` unchanged instead of
incrementing it by 1, so the one-conditional program never reaches its
`Done` at `pc = 1` and exhausts the runaway counter. -/
theorem if_fallthrough_does_not_advance_pc :
    (executeProgram c2Fns Ctx.create c2Globals 1).isPanicWith
      "runaway program" = true ∧
    (executeProgram c2FnsNot Ctx.create c2GlobalsNot 1).isPanicWith
      "runaway program" = true := by
  constructor
  · have h : executeProgram c2Fns Ctx.create c2Globals 1 =
        execLoop c2Fns 0 100000 c2S c2Globals 0 := rfl
    rw [h]
    have h2 : (100000 : Nat) = 99999 + 1 := by norm_num
    rw [h2]
    exact (c2_cycle_runaway 99999 0).1
  · have h : executeProgram c2FnsNot Ctx.create c2GlobalsNot 1 =
        execLoop c2FnsNot 0 100000 c2S c2GlobalsNot 0 := rfl
    rw [h]
    have h2 : (100000 : Nat) = 99999 + 1 := by norm_num
    rw [h2]
    exact (c2_cycle_runaway 99999 0).2

/-- The loop dispatches at most `r` statements when started with
runaway counter `r` and step count `s`. -/
theorem execLoop_steps_le (fns : Functions) (d : Nat) (r : Nat) :
    ∀ (ctx : Ctx) (g : Globals) (s : Nat),
      (execLoop fns d r ctx g s).steps ≤ s + r := by
  induction r with
  | zero =>
      intro ctx g s
      rw [execLoop]
      split <;> simp [ExecOutcome.steps]
  | succ r ih =>
      intro ctx g s
      rw [execLoop]
      repeat' split
      all_goals
        first
        | (simp only [ExecOutcome.steps]; omega)
        | (exact le_trans (ih _ _ _) (by omega))

/-! ## Concrete setup for the runaway guard (C4): function 1 consists
of the single statement `Goto 10` with `globals[10] = 0`, a jump to
itself. -/

/-- Function table of the C4 self-jump program. -/
def c4Fns : Functions :=
  { defs := [{ kind := .quakec 0, argStart := 0, locals := 0, nameId := 0,
               srcfileId := 0, argc := 0, argsz := [0, 0, 0, 0, 0, 0, 0, 0] },
             { kind := .quakec 0, argStart := 0, locals := 0, nameId := 0,
               srcfileId := 0, argc := 0, argsz := [0, 0, 0, 0, 0, 0, 0, 0] }],
    statements := [{ op := .opGoto, a := 10, b := 0, c := 0 }] }

/-- Globals of the C4 program: 12 zero words, so the jump delta read
from `globals[10]` is 0. -/
def c4Globals : Globals := { addrs := List.replicate 12 0 }

/-- State of the C4 run about to dispatch the self-jump. -/
def c4S : Ctx :=
  { pc := 0, currentFunction := 1, callStack := [⟨0, 0⟩], localStack := [] }

/-- The self-jump leaves the state unchanged, so from `c4S` the loop
always exhausts the runaway counter. -/
theorem c4_cycle_runaway (r : Nat) : ∀ s : Nat,
    (execLoop c4Fns 0 (r + 1) c4S c4Globals s).isPanicWith
      "runaway program" = true := by
  induction r with
  | zero => intro s; exact rfl
  | succ r ih =>
      intro s
      have h : execLoop c4Fns 0 (r + 1 + 1) c4S c4Globals s =
          execLoop c4Fns 0 (r + 1) c4S c4Globals (s + 1) := rfl
      rw [h]
      exact ih (s + 1)

/-- C4 counterexample: on the self-jump program `execute_program` does
terminate, but by the `panic!("runaway program")` -- the failure is not
a returned error value. -/
theorem runaway_is_panic_not_returned_error :
    (executeProgram c4Fns Ctx.create c4Globals 1).isPanicWith
      "runaway program" = true ∧
    (executeProgram c4Fns Ctx.create c4Globals 1).isReturnedErr = false := by
  have h : executeProgram c4Fns Ctx.create c4Globals 1 =
      execLoop c4Fns 0 100000 c4S c4Globals 0 := rfl
  have h2 : (100000 : Nat) = 99999 + 1 := by norm_num
  have hp : (executeProgram c4Fns Ctx.create c4Globals 1).isPanicWith
      "runaway program" = true := by
    rw [h, h2]; exact c4_cycle_runaway 99999 0
  exact ⟨hp, isPanicWith_not_isReturnedErr _ _ hp⟩

/-- C4 (amended): every top-level call to `execute_program` dispatches
at most 100000 statements, and on a program that jumps to itself it
terminates in bounded time by raising the runaway panic, which unwinds
to the host (rather than looping forever); the runaway is a panic, not
a returned error value. -/
theorem executeProgram_dispatches_at_most_100000 :
    (∀ (fns : Functions) (ctx : Ctx) (g : Globals) (f : Nat),
      (executeProgram fns ctx g f).steps ≤ 100000) ∧
    (executeProgram c4Fns Ctx.create c4Globals 1).isPanicWith
      "runaway program" = true := by
  constructor
  · intro fns ctx g f
    unfold executeProgram
    split
    · simp [ExecOutcome.steps]
    · exact le_trans (execLoop_steps_le fns ctx.callStack.length 100000 _ _ 0)
        (by omega)
  · have h : executeProgram c4Fns Ctx.create c4Globals 1 =
        execLoop c4Fns 0 100000 c4S c4Globals 0 := rfl
    have h2 : (100000 : Nat) = 99999 + 1 := by norm_num
    rw [h, h2]
    exact c4_cycle_runaway 99999 0

/-- An in-bounds nonnegative offset makes `get_bytes` succeed with the
stored word. -/
theorem get_bytes_natCast (g : Globals) (n : Nat) (h : n < g.addrs.length) :
    ∃ w : Word, g.addrs[n]? = some w ∧ g.get_bytes (n : Int) = .ok w := by
  have h2 : ((n : Int)).toNat < g.addrs.length := by simpa using h
  refine ⟨g.addrs.get ⟨n, h⟩, ?_, ?_⟩
  · rw [List.getElem?_eq_getElem h]; simp
  · unfold Globals.get_bytes
    rw [dif_pos ⟨Int.natCast_nonneg n, h2⟩]
    simp

/-- An in-bounds nonnegative offset makes `put_bytes` store the word. -/
theorem put_bytes_natCast (g : Globals) (w : Word) (n : Nat)
    (h : n < g.addrs.length) :
    g.put_bytes w (n : Int) = ({ addrs := g.addrs.set n w }, none) := by
  unfold Globals.put_bytes
  rw [if_pos ⟨Int.natCast_nonneg n, by simpa using h⟩]
  simp

/-- An in-bounds `untyped_copy` copies the stored source word to the
destination slot. -/
theorem untyped_copy_natCast (g : Globals) (s d : Nat)
    (hs : s < g.addrs.length) (hd : d < g.addrs.length) :
    ∃ w : Word, g.addrs[s]? = some w ∧
      g.untyped_copy (s : Int) (d : Int) =
        ({ addrs := g.addrs.set d w }, none) := by
  obtain ⟨w, hw, hget⟩ := get_bytes_natCast g s hs
  refine ⟨w, hw, ?_⟩
  unfold Globals.untyped_copy
  rw [hget]
  show g.put_bytes w (d : Int) = _
  exact put_bytes_natCast g w d hd

/-- Computation of `store_v` on the untyped (reserved static region)
path: with in-bounds, non-aliasing operands and a destination `d` with
`0 < d < GLOBAL_STATIC_START`, the three source words are transferred
verbatim. -/
theorem store_v_untyped_path (g : Globals) (s d : Nat)
    (hs : s + 2 < g.addrs.length) (hd : d + 2 < g.addrs.length)
    (hno : d ≤ s ∨ s + 2 < d)
    (hbr : 0 < d ∧ d < GLOBAL_STATIC_START) :
    ∃ w0 w1 w2 : Word,
      g.addrs[s]? = some w0 ∧ g.addrs[s + 1]? = some w1 ∧
      g.addrs[s + 2]? = some w2 ∧
      store_v g (s : Int) (d : Int) 0 =
        ({ addrs := ((g.addrs.set d w0).set (d + 1) w1).set (d + 2) w2 },
         none) := by
  obtain ⟨w0, hw0, hc0⟩ :=
    untyped_copy_natCast g s d (by omega) (by omega)
  obtain ⟨w1, hw1, hc1⟩ :=
    untyped_copy_natCast { addrs := g.addrs.set d w0 } (s + 1) (d + 1)
      (by simpa using by omega) (by simpa using by omega)
  obtain ⟨w2, hw2, hc2⟩ :=
    untyped_copy_natCast
      { addrs := (g.addrs.set d w0).set (d + 1) w1 } (s + 2) (d + 2)
      (by simpa using by omega) (by simpa using by omega)
  have hw1g : g.addrs[s + 1]? = some w1 := by
    have hne : d ≠ s + 1 := by omega
    rw [← List.getElem?_set_ne hne (a := w0)]
    exact hw1
  have hw2g : g.addrs[s + 2]? = some w2 := by
    have hne1 : d + 1 ≠ s + 2 := by omega
    have hne0 : d ≠ s + 2 := by omega
    rw [← List.getElem?_set_ne hne0 (a := w0),
        ← List.getElem?_set_ne hne1 (a := w1) (l := g.addrs.set d w0)]
    exact hw2
  refine ⟨w0, w1, w2, hw0, hw1g, hw2g, ?_⟩
  have hbrI : (0 : Int) < (d : Int) ∧
      (d : Int) < ((GLOBAL_STATIC_START : Nat) : Int) := by
    exact_mod_cast hbr
  have es1 : ((s : Int) + 1) = ((s + 1 : Nat) : Int) := by push_cast; ring
  have ed1 : ((d : Int) + 1) = ((d + 1 : Nat) : Int) := by push_cast; ring
  have es2 : ((s : Int) + 2) = ((s + 2 : Nat) : Int) := by push_cast; ring
  have ed2 : ((d : Int) + 2) = ((d + 2 : Nat) : Int) := by push_cast; ring
  simp only [store_v, if_pos hbrI, es1, ed1, es2, ed2, hc0, hc1, hc2,
    if_neg (by decide : ¬ ((0 : Int) ≠ 0))]

/-- Computation of `store_v` on the float path: with in-bounds,
non-aliasing operands and a destination outside the reserved static
region, the three words are copied through the float accessors (each
stored word is the `floatRoundTrip` of the source word). -/
theorem store_v_float_path (g : Globals) (s d : Nat)
    (hs : s + 2 < g.addrs.length) (hd : d + 2 < g.addrs.length)
    (hno : d ≤ s ∨ s + 2 < d)
    (hbr : ¬(0 < d ∧ d < GLOBAL_STATIC_START)) :
    ∃ w0 w1 w2 : Word,
      g.addrs[s]? = some w0 ∧ g.addrs[s + 1]? = some w1 ∧
      g.addrs[s + 2]? = some w2 ∧
      store_v g (s : Int) (d : Int) 0 =
        ({ addrs := ((g.addrs.set d (floatRoundTrip w0)).set (d + 1)
            (floatRoundTrip w1)).set (d + 2) (floatRoundTrip w2) },
         none) := by
  obtain ⟨w0, hw0, hg0⟩ := get_bytes_natCast g s (by omega)
  have hp0 := put_bytes_natCast g (floatRoundTrip w0) d (by omega)
  obtain ⟨w1, hw1, hg1⟩ :=
    get_bytes_natCast { addrs := g.addrs.set d (floatRoundTrip w0) } (s + 1)
      (by simpa using by omega)
  have hp1 := put_bytes_natCast
    { addrs := g.addrs.set d (floatRoundTrip w0) } (floatRoundTrip w1) (d + 1)
    (by simpa using by omega)
  obtain ⟨w2, hw2, hg2⟩ :=
    get_bytes_natCast
      { addrs := (g.addrs.set d (floatRoundTrip w0)).set (d + 1)
          (floatRoundTrip w1) } (s + 2)
      (by simpa using by omega)
  have hp2 := put_bytes_natCast
    { addrs := (g.addrs.set d (floatRoundTrip w0)).set (d + 1)
        (floatRoundTrip w1) } (floatRoundTrip w2) (d + 2)
    (by simpa using by omega)
  have hw1g : g.addrs[s + 1]? = some w1 := by
    have hne : d ≠ s + 1 := by omega
    rw [← List.getElem?_set_ne hne (a := floatRoundTrip w0)]
    exact hw1
  have hw2g : g.addrs[s + 2]? = some w2 := by
    have hne1 : d + 1 ≠ s + 2 := by omega
    have hne0 : d ≠ s + 2 := by omega
    rw [← List.getElem?_set_ne hne0 (a := floatRoundTrip w0),
        ← List.getElem?_set_ne hne1 (a := floatRoundTrip w1)
          (l := g.addrs.set d (floatRoundTrip w0))]
    exact hw2
  refine ⟨w0, w1, w2, hw0, hw1g, hw2g, ?_⟩
  have hbrI : ¬((0 : Int) < (d : Int) ∧
      (d : Int) < ((GLOBAL_STATIC_START : Nat) : Int)) := by
    intro hcontra
    exact hbr (by exact_mod_cast hcontra)
  have es1 : ((s : Int) + 1) = ((s + 1 : Nat) : Int) := by push_cast; ring
  have ed1 : ((d : Int) + 1) = ((d + 1 : Nat) : Int) := by push_cast; ring
  have es2 : ((s : Int) + 2) = ((s + 2 : Nat) : Int) := by push_cast; ring
  have ed2 : ((d : Int) + 2) = ((d + 2 : Nat) : Int) := by push_cast; ring
  simp only [store_v, Globals.get_float, Globals.put_float, if_neg hbrI,
    es1, ed1, es2, ed2, hg0, hg1, hg2, hp0, hp1, hp2,
    if_neg (by decide : ¬ ((0 : Int) ≠ 0))]

/-- Globals of the C7 overlap counterexample: `addrs[5..7] = (111, 222,
333)`, zeroes elsewhere, 32 words. -/
def c7Globals : Globals :=
  { addrs := (List.range 32).map
      (fun i => if i = 5 then 111 else if i = 6 then 222 else
                if i = 7 then 333 else 0) }

/-- C7 counterexample: `store_v` with source 5 and destination 6 (a
destination inside the reserved static region, `0 < 6 <
GLOBAL_STATIC_START`) succeeds but does not copy the three source
words: the copy is word-sequential, so after `g[5] -> g[6]` the second
word is read from the already-overwritten `g[6]`, and the destination
receives `(111, 111, 111)` although the source words were `(111, 222,
333)`. -/
theorem store_v_overlap_not_source_copy :
    (store_v c7Globals 5 6 0).2 = none ∧
    (store_v c7Globals 5 6 0).1.addrs[6]? = some 111 ∧
    (store_v c7Globals 5 6 0).1.addrs[7]? = some 111 ∧
    (store_v c7Globals 5 6 0).1.addrs[8]? = some 111 ∧
    c7Globals.addrs[5]? = some 111 ∧
    c7Globals.addrs[6]? = some 222 ∧
    c7Globals.addrs[7]? = some 333 := by
  decide

/-- C7 (amended): for in-bounds operands whose source and destination
ranges do not overlap in the clobbering direction (`d ≤ s` or
`s + 2 < d`), `store_v` with destination `d` in `0 < d <
GLOBAL_STATIC_START` copies the three source words bit-exactly through
the raw untyped copy, and with any other destination it copies the
three words through the float accessors (each destination word is the
float round-trip of its source word). -/
theorem store_v_region_copy_semantics (g : Globals) (s d : Nat)
    (hs : s + 2 < g.addrs.length) (hd : d + 2 < g.addrs.length)
    (hno : d ≤ s ∨ s + 2 < d) :
    ((0 < d ∧ d < GLOBAL_STATIC_START) →
      (store_v g (s : Int) (d : Int) 0).2 = none ∧
      (store_v g (s : Int) (d : Int) 0).1.addrs[d]? = g.addrs[s]? ∧
      (store_v g (s : Int) (d : Int) 0).1.addrs[d + 1]? = g.addrs[s + 1]? ∧
      (store_v g (s : Int) (d : Int) 0).1.addrs[d + 2]? = g.addrs[s + 2]?) ∧
    (¬(0 < d ∧ d < GLOBAL_STATIC_START) →
      (store_v g (s : Int) (d : Int) 0).2 = none ∧
      (store_v g (s : Int) (d : Int) 0).1.addrs[d]? =
        (g.addrs[s]?).map floatRoundTrip ∧
      (store_v g (s : Int) (d : Int) 0).1.addrs[d + 1]? =
        (g.addrs[s + 1]?).map floatRoundTrip ∧
      (store_v g (s : Int) (d : Int) 0).1.addrs[d + 2]? =
        (g.addrs[s + 2]?).map floatRoundTrip) := by
  constructor
  · intro hbr
    obtain ⟨w0, w1, w2, hw0, hw1, hw2, heq⟩ :=
      store_v_untyped_path g s d hs hd hno hbr
    rw [heq, hw0, hw1, hw2]
    refine ⟨rfl, ?_, ?_, ?_⟩
    · show (((g.addrs.set d w0).set (d + 1) w1).set (d + 2) w2)[d]? = some w0
      rw [List.getElem?_set_ne (show d + 2 ≠ d by omega),
          List.getElem?_set_ne (show d + 1 ≠ d by omega),
          List.getElem?_set_self (show d < g.addrs.length by omega)]
    · show (((g.addrs.set d w0).set (d + 1) w1).set (d + 2) w2)[d + 1]? =
        some w1
      rw [List.getElem?_set_ne (show d + 2 ≠ d + 1 by omega),
          List.getElem?_set_self
            (show d + 1 < (g.addrs.set d w0).length by simpa using by omega)]
    · show (((g.addrs.set d w0).set (d + 1) w1).set (d + 2) w2)[d + 2]? =
        some w2
      rw [List.getElem?_set_self
        (show d + 2 < ((g.addrs.set d w0).set (d + 1) w1).length by
          simpa using by omega)]
  · intro hbr
    obtain ⟨w0, w1, w2, hw0, hw1, hw2, heq⟩ :=
      store_v_float_path g s d hs hd hno hbr
    rw [heq, hw0, hw1, hw2]
    refine ⟨rfl, ?_, ?_, ?_⟩
    · show (((g.addrs.set d (floatRoundTrip w0)).set (d + 1)
          (floatRoundTrip w1)).set (d + 2) (floatRoundTrip w2))[d]? =
        (some w0).map floatRoundTrip
      rw [List.getElem?_set_ne (show d + 2 ≠ d by omega),
          List.getElem?_set_ne (show d + 1 ≠ d by omega),
          List.getElem?_set_self (show d < g.addrs.length by omega)]
      rfl
    · show (((g.addrs.set d (floatRoundTrip w0)).set (d + 1)
          (floatRoundTrip w1)).set (d + 2) (floatRoundTrip w2))[d + 1]? =
        (some w1).map floatRoundTrip
      rw [List.getElem?_set_ne (show d + 2 ≠ d + 1 by omega),
          List.getElem?_set_self
            (show d + 1 < (g.addrs.set d (floatRoundTrip w0)).length by
              simpa using by omega)]
      rfl
    · show (((g.addrs.set d (floatRoundTrip w0)).set (d + 1)
          (floatRoundTrip w1)).set (d + 2) (floatRoundTrip w2))[d + 2]? =
        (some w2).map floatRoundTrip
      rw [List.getElem?_set_self
        (show d + 2 < ((g.addrs.set d (floatRoundTrip w0)).set (d + 1)
            (floatRoundTrip w1)).length by simpa using by omega)]
      rfl

/-- Witness for C7 at concrete operands: the untyped branch at
destination 5 and the float branch at destination 29. -/
theorem store_v_region_copy_semantics_witness :
    ((29 + 2 < c7Globals.addrs.length ∧ 5 + 2 < c7Globals.addrs.length ∧
      (5 ≤ 29 ∨ 29 + 2 < 5) ∧ (0 < 5 ∧ 5 < GLOBAL_STATIC_START)) ∧
     ((store_v c7Globals (29 : Nat) (5 : Nat) 0).2 = none ∧
      (store_v c7Globals (29 : Nat) (5 : Nat) 0).1.addrs[5]? =
        c7Globals.addrs[29]? ∧
      (store_v c7Globals (29 : Nat) (5 : Nat) 0).1.addrs[5 + 1]? =
        c7Globals.addrs[29 + 1]? ∧
      (store_v c7Globals (29 : Nat) (5 : Nat) 0).1.addrs[5 + 2]? =
        c7Globals.addrs[29 + 2]?)) ∧
    (¬(0 < 29 ∧ 29 < GLOBAL_STATIC_START) ∧
     ((store_v c7Globals (5 : Nat) (29 : Nat) 0).2 = none ∧
      (store_v c7Globals (5 : Nat) (29 : Nat) 0).1.addrs[29]? =
        (c7Globals.addrs[5]?).map floatRoundTrip ∧
      (store_v c7Globals (5 : Nat) (29 : Nat) 0).1.addrs[29 + 1]? =
        (c7Globals.addrs[5 + 1]?).map floatRoundTrip ∧
      (store_v c7Globals (5 : Nat) (29 : Nat) 0).1.addrs[29 + 2]? =
        (c7Globals.addrs[5 + 2]?).map floatRoundTrip)) := by
  constructor
  · refine ⟨⟨by decide, by decide, by decide, by decide⟩, ?_⟩
    exact (store_v_region_copy_semantics c7Globals 29 5 (by decide)
      (by decide) (by decide)).1 (by decide)
  · refine ⟨by decide, ?_⟩
    exact (store_v_region_copy_semantics c7Globals 5 29 (by decide)
      (by decide) (by decide)).2 (by decide)

/-- The locals-saving loop pushes at most `n` words, and exactly `n`
when it succeeds. -/
theorem saveLocals_length (g : Globals) (a : Nat) :
    ∀ (n i : Nat) (ls : List Word),
      (saveLocals g a i n ls).1.length ≤ ls.length + n ∧
      ((saveLocals g a i n ls).2 = none →
        (saveLocals g a i n ls).1.length = ls.length + n) := by
  intro n
  induction n with
  | zero => intro i ls; simp [saveLocals]
  | succ n ih =>
      intro i ls
      simp only [saveLocals]
      split
      · simp
      · rename_i w heq
        have h := ih (i + 1) (w :: ls)
        constructor
        · refine le_trans h.1 ?_
          simp; omega
        · intro hnone
          have h2 := h.2 hnone
          simp at h2
          omega

/-- The locals-restoring loop only pops from the local stack. -/
theorem restoreLocals_length (a : Nat) :
    ∀ (n : Nat) (ls : List Word) (g : Globals),
      (restoreLocals a n ls g).1.length ≤ ls.length := by
  intro n
  induction n with
  | zero => intro ls g; simp [restoreLocals]
  | succ n ih =>
      intro ls g
      simp only [restoreLocals]
      split
      · simp
      · rename_i w rest
        split
        · simp
        · exact le_trans (ih rest _) (by simp)

/-- Stack-length facts about one `enter_function` call: the call stack
grows by at most one frame (the frame is pushed before the checks, so
it stays pushed even on failure); a successful call leaves the call
stack strictly below the cap and the local stack within its cap. -/
theorem enterFunction_stack_bounds (fns : Functions) (ctx : Ctx)
    (g : Globals) (f : Nat) (hls : ctx.localStack.length ≤ 2048) :
    (enterFunction fns ctx g f).1.callStack.length ≤
      ctx.callStack.length + 1 ∧
    ((enterFunction fns ctx g f).2.2 = none →
      (enterFunction fns ctx g f).1.callStack.length =
        ctx.callStack.length + 1 ∧
      (enterFunction fns ctx g f).1.callStack.length < 32) ∧
    (enterFunction fns ctx g f).1.localStack.length ≤ 2048 := by
  cases hdef : fns.get_def f with
  | error e =>
      simp only [enterFunction, hdef]
      exact ⟨by omega, by intro h; simp at h, hls⟩
  | ok d =>
      by_cases hcs : MAX_CALL_STACK_DEPTH ≤
          ({ instrId := ctx.pc, funcId := ctx.currentFunction } ::
            ctx.callStack : List StackFrame).length
      · simp only [enterFunction, hdef, if_pos hcs]
        exact ⟨by simp only [List.length_cons]; omega,
          by intro h; simp at h, hls⟩
      · by_cases hlocal : MAX_LOCAL_STACK_DEPTH <
            ctx.localStack.length + d.locals
        · simp only [enterFunction, hdef, if_neg hcs, if_pos hlocal]
          exact ⟨by simp only [List.length_cons]; omega,
            by intro h; simp at h, hls⟩
        · have hfit : ctx.localStack.length + d.locals ≤ 2048 := by
            simpa [MAX_LOCAL_STACK_DEPTH] using hlocal
          cases hsave : saveLocals g d.argStart 0 d.locals ctx.localStack with
          | mk ls res =>
            have hlen := saveLocals_length g d.argStart d.locals 0
              ctx.localStack
            rw [hsave] at hlen
            simp only [Prod.fst, Prod.snd] at hlen
            cases res with
            | some e =>
                simp only [enterFunction, hdef, if_neg hcs, if_neg hlocal,
                  hsave]
                exact ⟨by simp only [List.length_cons]; omega,
                  by intro h; simp at h,
                  by have := hlen.1; omega⟩
            | none =>
                have hlen2 : ls.length = ctx.localStack.length + d.locals :=
                  hlen.2 rfl
                cases hcopy : copyArgs d 0 d.argc g with
                | mk g1 res1 =>
                  cases res1 with
                  | some e =>
                      simp only [enterFunction, hdef, if_neg hcs,
                        if_neg hlocal, hsave, hcopy]
                      exact ⟨by simp only [List.length_cons]; omega,
                        by intro h; simp at h, by omega⟩
                  | none =>
                      cases hkind : d.kind with
                      | builtin id =>
                          simp only [enterFunction, hdef, if_neg hcs,
                            if_neg hlocal, hsave, hcopy, hkind]
                          exact ⟨by simp only [List.length_cons]; omega,
                            by intro h; simp at h, by omega⟩
                      | quakec first =>
                          simp only [enterFunction, hdef, if_neg hcs,
                            if_neg hlocal, hsave, hcopy, hkind]
                          refine ⟨by simp only [List.length_cons]; omega,
                            ?_, by omega⟩
                          intro _
                          simp only [List.length_cons,
                            MAX_CALL_STACK_DEPTH] at hcs ⊢
                          exact ⟨trivial, by omega⟩

/-- Stack-length facts about one `leave_function` call: neither stack
ever grows. -/
theorem leaveFunction_stack_bounds (fns : Functions) (ctx : Ctx)
    (g : Globals) :
    (leaveFunction fns ctx g).1.callStack.length ≤ ctx.callStack.length ∧
    (leaveFunction fns ctx g).1.localStack.length ≤ ctx.localStack.length := by
  unfold leaveFunction
  split
  · exact ⟨le_refl _, le_refl _⟩
  · rename_i d hdef
    split
    · rename_i ls g1 e hres
      have hlen := restoreLocals_length d.argStart d.locals ctx.localStack g
      rw [hres] at hlen
      exact ⟨by simp, by simpa using hlen⟩
    · rename_i ls g1 hres
      have hlen := restoreLocals_length d.argStart d.locals ctx.localStack g
      rw [hres] at hlen
      split
      · exact ⟨by simp, by simpa using hlen⟩
      · rename_i fr rest hcs
        constructor
        · simp [hcs]
        · simpa using hlen

/-- Stack caps along any sequence of `enter_function` /
`leave_function` calls that stops at the first failure: starting below
the caps (at most 31 frames, at most 2048 local words), the call stack
never exceeds 32 frames and the local stack never exceeds 2048
words. -/
theorem runOps_stack_invariant (fns : Functions) :
    ∀ (ops : List StackOp) (ctx : Ctx) (g : Globals),
      ctx.callStack.length ≤ 31 → ctx.localStack.length ≤ 2048 →
      (runOps fns ops ctx g).1.callStack.length ≤ 32 ∧
      (runOps fns ops ctx g).1.localStack.length ≤ 2048 := by
  intro ops
  induction ops with
  | nil =>
      intro ctx g h1 h2
      exact ⟨by simpa [runOps] using by omega, by simpa [runOps] using h2⟩
  | cons op rest ih =>
      intro ctx g h1 h2
      cases op with
      | enter f =>
          have hb := enterFunction_stack_bounds fns ctx g f h2
          cases hres : enterFunction fns ctx g f with
          | mk ctx1 p =>
            cases p with
            | mk g1 res =>
              rw [hres] at hb
              simp only [Prod.fst, Prod.snd] at hb
              cases res with
              | some e =>
                  simp only [runOps, hres]
                  exact ⟨by omega, hb.2.2⟩
              | none =>
                  simp only [runOps, hres]
                  have hok := hb.2.1 rfl
                  exact ih ctx1 g1 (by omega) hb.2.2
      | leave =>
          have hb := leaveFunction_stack_bounds fns ctx g
          cases hres : leaveFunction fns ctx g with
          | mk ctx1 p =>
            cases p with
            | mk g1 res =>
              rw [hres] at hb
              simp only [Prod.fst, Prod.snd] at hb
              cases res with
              | some e =>
                  simp only [runOps, hres]
                  exact ⟨by omega, by omega⟩
              | none =>
                  simp only [runOps, hres]
                  exact ih ctx1 g1 (by omega) (by omega)

/-- When a definition is found and the call stack already holds at
least 31 frames, `enter_function` reports the call stack overflow (the
pushed frame makes the stack reach the cap of 32). -/
theorem enterFunction_reports_call_overflow (fns : Functions) (ctx : Ctx)
    (g : Globals) (f : Nat) (d : FunctionDef)
    (hdef : fns.get_def f = .ok d) (h : 31 ≤ ctx.callStack.length) :
    (enterFunction fns ctx g f).2.2 = some (.err "call stack overflow") := by
  simp only [enterFunction, hdef]
  rw [if_pos (by simp only [List.length_cons, MAX_CALL_STACK_DEPTH]; omega)]

/-- When a definition is found, the pushed frame stays below the call
cap, and saving `def.locals` words would push the local stack past
2048, `enter_function` reports the local stack overflow. -/
theorem enterFunction_reports_local_overflow (fns : Functions) (ctx : Ctx)
    (g : Globals) (f : Nat) (d : FunctionDef)
    (hdef : fns.get_def f = .ok d)
    (hcs : ctx.callStack.length + 1 < 32)
    (hlo : 2048 < ctx.localStack.length + d.locals) :
    (enterFunction fns ctx g f).2.2 = some (.err "local stack overflow") := by
  simp only [enterFunction, hdef]
  rw [if_neg (by simp only [List.length_cons, MAX_CALL_STACK_DEPTH]; omega),
      if_pos (by simpa only [MAX_LOCAL_STACK_DEPTH] using hlo)]

/-! ## Concrete setup for the stack-cap behaviour (C8). -/

/-- A trivial function definition used by the C8 setups. -/
def c8Def : FunctionDef :=
  { kind := .quakec 0, argStart := 0, locals := 0, nameId := 0,
    srcfileId := 0, argc := 0, argsz := [0, 0, 0, 0, 0, 0, 0, 0] }

/-- Function table of the C8 setups: one trivial function. -/
def c8Fns : Functions := { defs := [c8Def], statements := [] }

/-- Globals of the C8 setups. -/
def c8Globals : Globals := { addrs := [0] }

/-- A function definition whose locals region is larger than the whole
local stack cap. -/
def c8BigDef : FunctionDef :=
  { kind := .quakec 0, argStart := 0, locals := 3000, nameId := 0,
    srcfileId := 0, argc := 0, argsz := [0, 0, 0, 0, 0, 0, 0, 0] }

/-- Function table holding `c8BigDef`. -/
def c8FnsBig : Functions := { defs := [c8BigDef], statements := [] }

/-- A context whose call stack already holds 31 frames. -/
def c8Ctx31 : Ctx :=
  { pc := 0, currentFunction := 0,
    callStack := List.replicate 31 ⟨0, 0⟩, localStack := [] }

set_option maxRecDepth 4096 in
/-- C8 counterexample: a failing `enter_function` leaves its frame
pushed, so calling `enter_function` again after failures grows the
call stack without bound; after 33 consecutive `enter_function` calls
on a fresh context the call stack holds 33 frames, exceeding 32. -/
theorem callStack_exceeds_cap_after_failed_enters :
    32 < (((fun p : Ctx × Globals =>
        ((enterFunction c8Fns p.1 p.2 0).1,
         (enterFunction c8Fns p.1 p.2 0).2.1))^[33])
      (Ctx.create, c8Globals)).1.callStack.length := by
  decide

/-- C8 (amended): along every sequence of `enter_function` /
`leave_function` operations from a fresh context in which no operation
is invoked again after a failure, the call stack depth never exceeds 32
and the local stack depth never exceeds 2048; `enter_function` fails
with a stack error whenever the pushed frame makes the call stack reach
the cap of 32, and whenever saving `def.locals` words would make the
local stack exceed 2048 (but the failing call leaves its frame
pushed). -/
theorem stack_caps_hold_until_first_failure :
    (∀ (fns : Functions) (ops : List StackOp) (g : Globals),
      (runOps fns ops Ctx.create g).1.callStack.length ≤ 32 ∧
      (runOps fns ops Ctx.create g).1.localStack.length ≤ 2048) ∧
    (∀ (fns : Functions) (ctx : Ctx) (g : Globals) (f : Nat)
        (d : FunctionDef), fns.get_def f = .ok d →
      31 ≤ ctx.callStack.length →
      (enterFunction fns ctx g f).2.2 =
        some (.err "call stack overflow")) ∧
    (∀ (fns : Functions) (ctx : Ctx) (g : Globals) (f : Nat)
        (d : FunctionDef), fns.get_def f = .ok d →
      ctx.callStack.length + 1 < 32 →
      2048 < ctx.localStack.length + d.locals →
      (enterFunction fns ctx g f).2.2 =
        some (.err "local stack overflow")) := by
  refine ⟨?_, ?_, ?_⟩
  · intro fns ops g
    exact runOps_stack_invariant fns ops Ctx.create g (by simp [Ctx.create])
      (by simp [Ctx.create])
  · intro fns ctx g f d hdef h
    exact enterFunction_reports_call_overflow fns ctx g f d hdef h
  · intro fns ctx g f d hdef hcs hlo
    exact enterFunction_reports_local_overflow fns ctx g f d hdef hcs hlo

/-- Witness for C8 at concrete inputs: an enter/leave pair from a
fresh context, a call overflow at 31 frames, and a local overflow with
3000 locals. -/
theorem stack_caps_hold_until_first_failure_witness :
    ((runOps c8Fns [StackOp.enter 0, StackOp.leave] Ctx.create
        c8Globals).1.callStack.length ≤ 32 ∧
     (runOps c8Fns [StackOp.enter 0, StackOp.leave] Ctx.create
        c8Globals).1.localStack.length ≤ 2048) ∧
    (c8Fns.get_def 0 = .ok c8Def ∧ 31 ≤ c8Ctx31.callStack.length ∧
     (enterFunction c8Fns c8Ctx31 c8Globals 0).2.2 =
       some (.err "call stack overflow")) ∧
    (c8FnsBig.get_def 0 = .ok c8BigDef ∧
     Ctx.create.callStack.length + 1 < 32 ∧
     2048 < Ctx.create.localStack.length + c8BigDef.locals ∧
     (enterFunction c8FnsBig Ctx.create c8Globals 0).2.2 =
       some (.err "local stack overflow")) := by
  refine ⟨stack_caps_hold_until_first_failure.1 c8Fns
      [StackOp.enter 0, StackOp.leave] c8Globals, ⟨?_, ?_, ?_⟩, ⟨?_, ?_, ?_, ?_⟩⟩
  · rfl
  · decide
  · exact stack_caps_hold_until_first_failure.2.1 c8Fns c8Ctx31 c8Globals 0
      c8Def rfl (by decide)
  · rfl
  · decide
  · decide
  · exact stack_caps_hold_until_first_failure.2.2 c8FnsBig Ctx.create
      c8Globals 0 c8BigDef rfl (by decide) (by decide)
